import Mathlib

/-!
Verification of the QuantMath bump-and-restore risk engine core.

This file gives a shallow embedding of the five Rust sources
(`risk/marketdata.rs`, `risk/cache.rs`, `pricers/selfpricer.rs`,
`instruments/assets.rs`, `instruments/bonds.rs`) and proves or refutes
the frozen claims about them.

Modelling conventions:
* Rust `Date` (a calendar day supporting ordering and day offsets) is `Int`.
* Rust `f64` slots are modelled as `ℚ`; the branches that return literal
  values (`1.0`, a stored spot) are exact in the source, so the exactness
  claims are faithful to the control flow.
* `HashMap<String, T>` is a function map `String → Option T`; `insert`,
  lookup and `clear` follow the hash-map semantics pointwise.
* Rust `Result<T, qm::Error>` is `Except String T`.  The `qm::Error`
  payload is the formatted message string.
* `&mut` state is threaded explicitly: a Rust method mutating `self` and a
  ledger becomes a function returning the new values.  Mutations performed
  before an early `Err` return are not observable in this functional
  embedding; no claim depends on post-error intermediate state.
* Ledgers are typed (`SavedData`, `SavedPrefetch`), so the `Any` downcast
  performed by the source always succeeds and is not modelled.
-/

namespace QuantMath

abbrev Date := Int

abbrev Value := ℚ

/-- Rust `HashMap<String, T>` modelled extensionally. -/
def StrMap (T : Type) := String → Option T

/-- Rust `HashMap::new()` / `clear()`: the empty map. -/
def StrMap.empty {T : Type} : StrMap T := fun _ => none

/-- Rust `HashMap::insert(k, v)`. -/
def StrMap.insert {T : Type} (m : StrMap T) (k : String) (v : T) : StrMap T :=
  fun q => if q = k then some v else m q

/-- Rust `HashMap::get(k)`. -/
def StrMap.get {T : Type} (m : StrMap T) (k : String) : Option T := m k

/-- Rust `find_market_data` in `risk/marketdata.rs`: exact-id lookup producing the
missing-data error message. -/
def find_market_data {T : Type} (id : String) (collection : StrMap T)
    (item : String) : Except String T :=
  match collection id with
  | none => .error (item ++ " not found: \x27" ++ id ++ "\x27")
  | some x => .ok x

/-- Rust `find_cached_data` in `risk/cache.rs`: exact-id lookup in the prefetch
cache producing the incorrect-dependencies error message. -/
def find_cached_data {T : Type} (id : String) (collection : StrMap T)
    (item : String) : Except String T :=
  match collection id with
  | none => .error (item ++ " not found (incorrect dependencies?): \x27" ++ id ++ "\x27")
  | some x => .ok x

/-! ## Instrument pricing (`instruments/assets.rs`, `instruments/bonds.rs`)

The `Priceable::price` methods are generic over any `PricingContext`.  The
read interface is embedded as a structure of the reads those methods use;
`RateCurve` is the external read-only curve exposing `df`. -/

/-- External `RateCurve`: read-only, supports `df(pay_date, discount_date)`. -/
structure RateCurve where
  df : Date → Date → Value

/-- The `PricingContext` read interface, restricted to the reads used by the
asset and bond `price` implementations. -/
structure PricingContext where
  spot_date : Date
  discount_date : Option Date
  yield_curve : String → Date → Except String RateCurve
  spot : String → Except String Value

/-- The instrument identity used by `discount_from_spot`: id, credit id and
the settlement rule (`DateRule::apply`). -/
structure InstrumentInfo where
  id : String
  credit_id : String
  settlement : Date → Date

/-- Rust `discount_from_spot` in `instruments/assets.rs`. -/
def discount_from_spot (instrument : InstrumentInfo) (context : PricingContext) :
    Except String Value :=
  match context.discount_date with
  | none => .ok 1
  | some discount_date =>
    let spot_date := context.spot_date
    let pay_date := instrument.settlement spot_date
    if discount_date = pay_date then
      .ok 1
    else do
      let yc ← context.yield_curve instrument.credit_id (max discount_date pay_date)
      .ok (yc.df pay_date discount_date)

/-- Rust `Currency` in `instruments/assets.rs`. -/
structure Currency where
  id : String
  settlement : Date → Date

/-- A currency's credit id is its own id. -/
def Currency.credit_id (c : Currency) : String := c.id

def Currency.info (c : Currency) : InstrumentInfo :=
  ⟨c.id, c.credit_id, c.settlement⟩

/-- Rust `Priceable for Currency`. -/
def Currency.price (c : Currency) (context : PricingContext) : Except String Value :=
  discount_from_spot c.info context

/-- Rust `CreditEntity` in `instruments/assets.rs`. -/
structure CreditEntity where
  id : String
  settlement : Date → Date

/-- A credit entity's credit id is its own id. -/
def CreditEntity.credit_id (c : CreditEntity) : String := c.id

def CreditEntity.info (c : CreditEntity) : InstrumentInfo :=
  ⟨c.id, c.credit_id, c.settlement⟩

/-- Rust `Priceable for CreditEntity`. -/
def CreditEntity.price (c : CreditEntity) (context : PricingContext) :
    Except String Value :=
  discount_from_spot c.info context

/-- Rust `Equity` in `instruments/assets.rs`. -/
structure Equity where
  id : String
  credit_id : String
  settlement : Date → Date

def Equity.info (e : Equity) : InstrumentInfo :=
  ⟨e.id, e.credit_id, e.settlement⟩

/-- Rust `Priceable for Equity`: the discount factor is computed first, then the
spot, and the price is their product. -/
def Equity.price (e : Equity) (context : PricingContext) : Except String Value := do
  let df ← discount_from_spot e.info context
  let spot ← context.spot e.id
  .ok (spot * df)

/-- Rust `ZeroCoupon` in `instruments/bonds.rs`. -/
structure ZeroCoupon where
  id : String
  credit_id : String
  payment_date : Date
  settlement : Date → Date

/-- Rust `Priceable for ZeroCoupon`. -/
def ZeroCoupon.price (z : ZeroCoupon) (context : PricingContext) :
    Except String Value :=
  let discount_date :=
    match context.discount_date with
    | none => z.settlement context.spot_date
    | some d => d
  if discount_date = z.payment_date then
    .ok 1
  else do
    let yc ← context.yield_curve z.credit_id (max discount_date z.payment_date)
    .ok (yc.df z.payment_date discount_date)

/-- The effective discount date of the zero coupon's `price`: its local
`discount_date` binding — the context's discount date when present,
otherwise the zero's settlement rule applied to the context's spot date. -/
def ZeroCoupon.effective_discount_date (z : ZeroCoupon)
    (context : PricingContext) : Date :=
  match context.discount_date with
  | none => z.settlement context.spot_date
  | some d => d

/-! ## Market data store and ledger (`risk/marketdata.rs`)

The raw-slot artifact types (rate curves, dividend streams, vol surfaces,
forwards) are external to the sources; the store is generic over them, just
as the bump/restore helpers `apply_bump` and `copy_from_saved` are generic
in the source. -/

section Risk

variable {RC DS VS FWD : Type}

/-- Rust `MarketData` in `risk/marketdata.rs`, generic over the external artifact
types: `RC` = rate curve, `DS` = dividend stream, `VS` = vol surface. -/
structure MarketData (RC DS VS : Type) where
  spot_date : Date
  discount_date : Option Date
  spots : StrMap Value
  yield_curves : StrMap RC
  borrow_curves : StrMap RC
  dividends : StrMap DS
  vol_surfaces : StrMap VS

/-- Rust `SavedData` in `risk/marketdata.rs`: the save/restore ledger for the raw
market-data slots. -/
structure SavedData (RC DS VS : Type) where
  discount_date : Option Date
  replaced_discount_date : Bool
  spots : StrMap Value
  yield_curves : StrMap RC
  borrow_curves : StrMap RC
  dividends : StrMap DS
  vol_surfaces : StrMap VS

/-- Rust `SavedData::new()`: an empty ledger. -/
def SavedData.new : SavedData RC DS VS :=
  ⟨none, false, StrMap.empty, StrMap.empty, StrMap.empty, StrMap.empty, StrMap.empty⟩

/-- Rust `Saveable::clear` for `SavedData`: reset every field. -/
def SavedData.clear (_ : SavedData RC DS VS) : SavedData RC DS VS :=
  ⟨none, false, StrMap.empty, StrMap.empty, StrMap.empty, StrMap.empty, StrMap.empty⟩

/-- A bump value object: a pure `apply(old) → new` over its slot type. -/
structure Bump (T : Type) where
  apply : T → T

/-- Rust `apply_bump` in `risk/marketdata.rs`: if the slot is absent return
`false` with no change; otherwise insert the current value into the ledger
table (unconditionally), replace the slot with `bump.apply(current)` and
return `true`. -/
def apply_bump {T : Type} (id : String) (bump : Bump T)
    (to_bump : StrMap T) (to_save : StrMap T) : Bool × StrMap T × StrMap T :=
  match to_bump id with
  | some entry =>
    (true, to_bump.insert id (bump.apply entry), to_save.insert id entry)
  | none => (false, to_bump, to_save)

/-- Rust `copy_from_saved` in `risk/marketdata.rs`: insert every saved entry back
over the live map. -/
def copy_from_saved {T : Type} (to_restore : StrMap T) (saved : StrMap T) :
    StrMap T :=
  fun k =>
    match saved k with
    | some v => some v
    | none => to_restore k

/-- Rust `MarketData::bump_spot` (via `Bumpable`). -/
def MarketData.bump_spot (md : MarketData RC DS VS) (id : String)
    (bump : Bump Value) (save : SavedData RC DS VS) :
    Except String (Bool × MarketData RC DS VS × SavedData RC DS VS) :=
  let r := apply_bump id bump md.spots save.spots
  .ok (r.1, { md with spots := r.2.1 }, { save with spots := r.2.2 })

/-- Rust `MarketData::bump_yield` (via `Bumpable`); keyed by credit id. -/
def MarketData.bump_yield (md : MarketData RC DS VS) (credit_id : String)
    (bump : Bump RC) (save : SavedData RC DS VS) :
    Except String (Bool × MarketData RC DS VS × SavedData RC DS VS) :=
  let r := apply_bump credit_id bump md.yield_curves save.yield_curves
  .ok (r.1, { md with yield_curves := r.2.1 }, { save with yield_curves := r.2.2 })

/-- Rust `MarketData::bump_borrow` (via `Bumpable`). -/
def MarketData.bump_borrow (md : MarketData RC DS VS) (id : String)
    (bump : Bump RC) (save : SavedData RC DS VS) :
    Except String (Bool × MarketData RC DS VS × SavedData RC DS VS) :=
  let r := apply_bump id bump md.borrow_curves save.borrow_curves
  .ok (r.1, { md with borrow_curves := r.2.1 }, { save with borrow_curves := r.2.2 })

/-- Rust `MarketData::bump_divs` (via `Bumpable`). -/
def MarketData.bump_divs (md : MarketData RC DS VS) (id : String)
    (bump : Bump DS) (save : SavedData RC DS VS) :
    Except String (Bool × MarketData RC DS VS × SavedData RC DS VS) :=
  let r := apply_bump id bump md.dividends save.dividends
  .ok (r.1, { md with dividends := r.2.1 }, { save with dividends := r.2.2 })

/-- Rust `MarketData::bump_vol` (via `Bumpable`). -/
def MarketData.bump_vol (md : MarketData RC DS VS) (id : String)
    (bump : Bump VS) (save : SavedData RC DS VS) :
    Except String (Bool × MarketData RC DS VS × SavedData RC DS VS) :=
  let r := apply_bump id bump md.vol_surfaces save.vol_surfaces
  .ok (r.1, { md with vol_surfaces := r.2.1 }, { save with vol_surfaces := r.2.2 })

/-- Rust `MarketData::bump_discount_date`: copy the current discount date and set
the replaced flag in the ledger, install the replacement, and return whether
the saved (old) and new values differ. -/
def MarketData.bump_discount_date (md : MarketData RC DS VS)
    (replacement : Date) (save : SavedData RC DS VS) :
    Except String (Bool × MarketData RC DS VS × SavedData RC DS VS) :=
  let saved := { save with
    discount_date := md.discount_date
    replaced_discount_date := true }
  let md2 := { md with discount_date := some replacement }
  .ok (decide (saved.discount_date ≠ md2.discount_date), md2, saved)

/-- Rust `MarketData::forward_id_by_credit_id`: always an error. -/
def MarketData.forward_id_by_credit_id (_md : MarketData RC DS VS)
    (_credit_id : String) : Except String (List String) :=
  .error "Forward id from credit id mapping not available you need to use PrefetchedPricingContext"

/-- Rust `MarketData::restore`: overwrite the discount date when the ledger
replaced it, then copy-merge every saved table over the live one. -/
def MarketData.restore (md : MarketData RC DS VS) (saved : SavedData RC DS VS) :
    MarketData RC DS VS :=
  { md with
    discount_date :=
      if saved.replaced_discount_date then saved.discount_date else md.discount_date
    spots := copy_from_saved md.spots saved.spots
    yield_curves := copy_from_saved md.yield_curves saved.yield_curves
    borrow_curves := copy_from_saved md.borrow_curves saved.borrow_curves
    dividends := copy_from_saved md.dividends saved.dividends
    vol_surfaces := copy_from_saved md.vol_surfaces saved.vol_surfaces }

/-- Rust `MarketData`'s `PricingContext::yield_curve` read (the high-water mark is
ignored). -/
def MarketData.yield_curve (md : MarketData RC DS VS) (credit_id : String)
    (_high_water_mark : Date) : Except String RC :=
  find_market_data credit_id md.yield_curves "Yield curve"

/-- Rust `MarketData`'s `PricingContext::spot` read. -/
def MarketData.spot (md : MarketData RC DS VS) (id : String) :
    Except String Value :=
  find_market_data id md.spots "Spot"

/-! ## Derived-data reads of the market data store

`MarketData::forward_curve` composes the instrument's spot, dividends,
borrow curve and credit-keyed yield curve and hands them to the external
`EquityForward::new` constructor, passed here as the `build` argument.
`MarketData::vol_surface` fetches the raw surface and passes it through the
instrument's two external vol-dynamics decorators. -/

/-- The instrument interface as consumed by `risk/cache.rs` and
`risk/marketdata.rs`: identity, credit id, settlement rule, and the two
external vol-dynamics decorators (`vol_time_dynamics().modify`,
`vol_forward_dynamics().modify`). -/
structure Instrument (VS FWD : Type) where
  id : String
  credit_id : String
  settlement : Date → Date
  vol_time_dynamics : VS → Date → Except String VS
  vol_forward_dynamics : VS → FWD → Except String VS

/-- The external `EquityForward::new` constructor: spot date, spot,
settlement rule, yield curve, borrow curve, dividends, high water mark. -/
def ForwardBuilder (RC DS FWD : Type) :=
  Date → Value → (Date → Date) → RC → RC → DS → Date → Except String FWD

/-- Rust `MarketData`'s `PricingContext::forward_curve`: constructed on demand
from the raw slots, all fetched by the missing-data rules. -/
def MarketData.forward_curve (md : MarketData RC DS VS)
    (build : ForwardBuilder RC DS FWD) (instrument : Instrument VS FWD)
    (high_water_mark : Date) : Except String FWD := do
  let spot ← find_market_data instrument.id md.spots "Spot"
  let divs ← find_market_data instrument.id md.dividends "Dividends"
  let borrow ← find_market_data instrument.id md.borrow_curves "Borrow curve"
  let yield_curve ←
    find_market_data instrument.credit_id md.yield_curves "Yield curve for forward"
  build md.spot_date spot instrument.settlement yield_curve borrow divs high_water_mark

/-- Rust `MarketData`'s `PricingContext::vol_surface`: raw surface fetched by
instrument id, then decorated by the instrument's vol dynamics. -/
def MarketData.vol_surface (md : MarketData RC DS VS)
    (instrument : Instrument VS FWD) (forward : FWD) (_high_water_mark : Date) :
    Except String VS := do
  let vol ← find_market_data instrument.id md.vol_surfaces "Vol surface"
  let vol2 ← instrument.vol_time_dynamics vol md.spot_date
  instrument.vol_forward_dynamics vol2 forward

/-- Rust `MarketData`'s `PricingContext::correlation`: not implemented. -/
def MarketData.correlation (_md : MarketData RC DS VS)
    (_first _second : Instrument VS FWD) : Except String Value :=
  .error "Correlation not implemented"

/-! ## Prefetch cache (`risk/cache.rs`) -/

/-- Modelled from the spec: the `DependencyCollector` record of
`risk/dependencies.rs` is not among the sources; per the spec's data model
it maps instruments to forward high-water-mark dates, instruments to vol
high-water-mark dates, credit ids to the instrument ids depending on them,
and carries the spot date.  Instruments compare by id in the source, so the
vol and instrument lookups are keyed by id here.  `forward_curves` is the
iteration order of the forward-requirement map. -/
structure DependencyCollector (VS FWD : Type) where
  spot_date : Date
  forward_curves : List (Instrument VS FWD × Date)
  vol_surfaces : StrMap Date
  instruments : StrMap (Instrument VS FWD)
  forward_ids_by_credit_id : String → List String

/-- Rust `DependencyCollector::instrument_by_id`. -/
def DependencyCollector.instrument_by_id (deps : DependencyCollector VS FWD)
    (id : String) : Option (Instrument VS FWD) :=
  deps.instruments id

/-- Rust `DependencyCollector::forward_curve_hwm`. -/
def DependencyCollector.forward_curve_hwm (deps : DependencyCollector VS FWD)
    (inst : Instrument VS FWD) : Option Date :=
  (deps.forward_curves.find? (fun p => p.1.id = inst.id)).map (fun p => p.2)

/-- Rust `DependencyCollector::vol_surface_hwm`. -/
def DependencyCollector.vol_surface_hwm (deps : DependencyCollector VS FWD)
    (inst : Instrument VS FWD) : Option Date :=
  deps.vol_surfaces inst.id

/-- The loop body of `walk_dependencies` in `risk/cache.rs`, recursing over
the forward requirements: fetch each forward; when the instrument also has a
vol requirement, fetch the vol surface too; insert both by id. -/
def walk_dependencies_from (context : MarketData RC DS VS)
    (build : ForwardBuilder RC DS FWD) (vol_dependencies : StrMap Date) :
    List (Instrument VS FWD × Date) → StrMap FWD → StrMap VS →
    Except String (StrMap FWD × StrMap VS)
  | [], forward_curves, vol_surfaces => .ok (forward_curves, vol_surfaces)
  | (instrument, high_water_mark) :: rest, forward_curves, vol_surfaces => do
    let forward ← context.forward_curve build instrument high_water_mark
    let vol_surfaces2 ←
      match vol_dependencies instrument.id with
      | some vol_hwd => do
        let vol ← context.vol_surface instrument forward vol_hwd
        pure (vol_surfaces.insert instrument.id vol)
      | none => pure vol_surfaces
    walk_dependencies_from context build vol_dependencies rest
      (forward_curves.insert instrument.id forward) vol_surfaces2

/-- Rust `walk_dependencies` in `risk/cache.rs`. -/
def walk_dependencies (context : MarketData RC DS VS)
    (build : ForwardBuilder RC DS FWD) (dependencies : DependencyCollector VS FWD)
    (forward_curves : StrMap FWD) (vol_surfaces : StrMap VS) :
    Except String (StrMap FWD × StrMap VS) :=
  walk_dependencies_from context build dependencies.vol_surfaces
    dependencies.forward_curves forward_curves vol_surfaces

/-- Rust `PricingContextPrefetch` in `risk/cache.rs`: an owned market-data clone,
the shared dependency record, and the two prefetched caches. -/
structure PricingContextPrefetch (RC DS VS FWD : Type) where
  context : MarketData RC DS VS
  dependencies : DependencyCollector VS FWD
  forward_curves : StrMap FWD
  vol_surfaces : StrMap VS

/-- Rust `PricingContextPrefetch::new`: walk the dependencies from empty caches,
then store the cloned market data and the caches.  All failures surface. -/
def PricingContextPrefetch.new (context : MarketData RC DS VS)
    (build : ForwardBuilder RC DS FWD) (dependencies : DependencyCollector VS FWD) :
    Except String (PricingContextPrefetch RC DS VS FWD) := do
  let caches ← walk_dependencies context build dependencies StrMap.empty StrMap.empty
  .ok ⟨context, dependencies, caches.1, caches.2⟩

/-- Rust `SavedPrefetch` in `risk/cache.rs`: the raw-slot ledger plus the two
cached-artifact snapshot tables. -/
structure SavedPrefetch (RC DS VS FWD : Type) where
  saved_data : SavedData RC DS VS
  forward_curves : StrMap FWD
  vol_surfaces : StrMap VS

/-- Rust `SavedPrefetch::new()`. -/
def SavedPrefetch.new : SavedPrefetch RC DS VS FWD :=
  ⟨SavedData.new, StrMap.empty, StrMap.empty⟩

/-- Rust `Saveable::clear` for `SavedPrefetch`. -/
def SavedPrefetch.clear (_ : SavedPrefetch RC DS VS FWD) :
    SavedPrefetch RC DS VS FWD :=
  ⟨SavedData.new, StrMap.empty, StrMap.empty⟩

/-- Rust `PricingContextPrefetch::refetch`: after a bump, rebuild the cached
forward and/or vol surface for one id.  Nothing bumped returns `false`
immediately; a missing cached forward or unresolvable instrument is an
error; the forward step snapshots then rebuilds via the inner market data;
the vol step runs only when a vol surface is cached for the id, snapshots
it, and rebuilds using the possibly-rebuilt forward. -/
def PricingContextPrefetch.refetch (s : PricingContextPrefetch RC DS VS FWD)
    (build : ForwardBuilder RC DS FWD) (id : String)
    (bumped_forward : Bool) (bumped_vol : Bool)
    (saved : SavedPrefetch RC DS VS FWD) :
    Except String (Bool × PricingContextPrefetch RC DS VS FWD × SavedPrefetch RC DS VS FWD) :=
  cond (!bumped_forward && !bumped_vol)
    (.ok (false, s, saved))
    (match s.forward_curves id with
    | none => .error "Cannot find prefetched forward"
    | some fwd =>
      match s.dependencies.instrument_by_id id with
      | none => .error "Cannot find instrument"
      | some inst => do
        let step1 ←
          cond bumped_forward
            (let saved1 :=
              { saved with forward_curves := saved.forward_curves.insert id fwd }
            match s.dependencies.forward_curve_hwm inst with
            | some hwm => do
              let nf ← s.context.forward_curve build inst hwm
              pure (nf, s.forward_curves.insert id nf, saved1)
            | none => Except.error "Cannot find forward")
            (pure (fwd, s.forward_curves, saved))
        let step2 ←
          cond bumped_vol
            (match s.vol_surfaces id with
            | some vol =>
              let saved2 :=
                { step1.2.2 with vol_surfaces := step1.2.2.vol_surfaces.insert id vol }
              match s.dependencies.vol_surface_hwm inst with
              | some vol_hwm => do
                let nv ← s.context.vol_surface inst step1.1 vol_hwm
                pure (s.vol_surfaces.insert id nv, saved2)
              | none => Except.error "Cannot find vol"
            | none => pure (s.vol_surfaces, step1.2.2))
            (pure (s.vol_surfaces, step1.2.2))
        .ok (true,
          { s with
            forward_curves := step1.2.1
            vol_surfaces := step2.1 },
          step2.2))

/-- Rust `PricingContext for PricingContextPrefetch`: `spot_date` delegates. -/
def PricingContextPrefetch.spot_date (s : PricingContextPrefetch RC DS VS FWD) :
    Date :=
  s.context.spot_date

/-- Rust `PricingContext for PricingContextPrefetch`: `discount_date` delegates. -/
def PricingContextPrefetch.discount_date
    (s : PricingContextPrefetch RC DS VS FWD) : Option Date :=
  s.context.discount_date

/-- Rust `PricingContext for PricingContextPrefetch`: `yield_curve` delegates. -/
def PricingContextPrefetch.yield_curve (s : PricingContextPrefetch RC DS VS FWD)
    (credit_id : String) (high_water_mark : Date) : Except String RC :=
  s.context.yield_curve credit_id high_water_mark

/-- Rust `PricingContext for PricingContextPrefetch`: `spot` delegates. -/
def PricingContextPrefetch.spot (s : PricingContextPrefetch RC DS VS FWD)
    (id : String) : Except String Value :=
  s.context.spot id

/-- Rust `PricingContext for PricingContextPrefetch`: `forward_curve` is served
from the cache by id. -/
def PricingContextPrefetch.forward_curve (s : PricingContextPrefetch RC DS VS FWD)
    (instrument : Instrument VS FWD) (_high_water_mark : Date) :
    Except String FWD :=
  find_cached_data instrument.id s.forward_curves "Forward"

/-- Rust `PricingContext for PricingContextPrefetch`: `vol_surface` is served
from the cache by id. -/
def PricingContextPrefetch.vol_surface (s : PricingContextPrefetch RC DS VS FWD)
    (instrument : Instrument VS FWD) (_forward : FWD) (_high_water_mark : Date) :
    Except String VS :=
  find_cached_data instrument.id s.vol_surfaces "Vol Surface"

/-- Rust `PricingContext for PricingContextPrefetch`: `correlation` delegates. -/
def PricingContextPrefetch.correlation (s : PricingContextPrefetch RC DS VS FWD)
    (first second : Instrument VS FWD) : Except String Value :=
  s.context.correlation first second

/-- Rust `Bumpable for PricingContextPrefetch`: `bump_spot` bumps the raw slot
then refetches the forward for that id. -/
def PricingContextPrefetch.bump_spot (s : PricingContextPrefetch RC DS VS FWD)
    (build : ForwardBuilder RC DS FWD) (id : String) (bump : Bump Value)
    (saved : SavedPrefetch RC DS VS FWD) :
    Except String (Bool × PricingContextPrefetch RC DS VS FWD × SavedPrefetch RC DS VS FWD) := do
  let r ← s.context.bump_spot id bump saved.saved_data
  PricingContextPrefetch.refetch
    { s with context := r.2.1 } build id r.1 false
    { saved with saved_data := r.2.2 }

/-- The `for` loop of `bump_yield`: refetch each dependent forward id in
turn, threading the state and stopping at the first error. -/
def refetch_each (build : ForwardBuilder RC DS FWD) (bumped : Bool) :
    List String → PricingContextPrefetch RC DS VS FWD →
    SavedPrefetch RC DS VS FWD →
    Except String (PricingContextPrefetch RC DS VS FWD × SavedPrefetch RC DS VS FWD)
  | [], s, saved => .ok (s, saved)
  | id :: rest, s, saved => do
    let r ← s.refetch build id bumped false saved
    refetch_each build bumped rest r.2.1 r.2.2

/-- Rust `Bumpable for PricingContextPrefetch`: `bump_yield` bumps the raw curve
then refetches the forward of every id depending on that credit id, and
returns whether the raw slot changed. -/
def PricingContextPrefetch.bump_yield (s : PricingContextPrefetch RC DS VS FWD)
    (build : ForwardBuilder RC DS FWD) (credit_id : String) (bump : Bump RC)
    (saved : SavedPrefetch RC DS VS FWD) :
    Except String (Bool × PricingContextPrefetch RC DS VS FWD × SavedPrefetch RC DS VS FWD) := do
  let r ← s.context.bump_yield credit_id bump saved.saved_data
  let ids := s.dependencies.forward_ids_by_credit_id credit_id
  let r2 ← refetch_each build r.1 ids
    { s with context := r.2.1 } { saved with saved_data := r.2.2 }
  .ok (r.1, r2.1, r2.2)

/-- Rust `Bumpable for PricingContextPrefetch`: `bump_borrow`. -/
def PricingContextPrefetch.bump_borrow (s : PricingContextPrefetch RC DS VS FWD)
    (build : ForwardBuilder RC DS FWD) (id : String) (bump : Bump RC)
    (saved : SavedPrefetch RC DS VS FWD) :
    Except String (Bool × PricingContextPrefetch RC DS VS FWD × SavedPrefetch RC DS VS FWD) := do
  let r ← s.context.bump_borrow id bump saved.saved_data
  PricingContextPrefetch.refetch
    { s with context := r.2.1 } build id r.1 false
    { saved with saved_data := r.2.2 }

/-- Rust `Bumpable for PricingContextPrefetch`: `bump_divs`. -/
def PricingContextPrefetch.bump_divs (s : PricingContextPrefetch RC DS VS FWD)
    (build : ForwardBuilder RC DS FWD) (id : String) (bump : Bump DS)
    (saved : SavedPrefetch RC DS VS FWD) :
    Except String (Bool × PricingContextPrefetch RC DS VS FWD × SavedPrefetch RC DS VS FWD) := do
  let r ← s.context.bump_divs id bump saved.saved_data
  PricingContextPrefetch.refetch
    { s with context := r.2.1 } build id r.1 false
    { saved with saved_data := r.2.2 }

/-- Rust `Bumpable for PricingContextPrefetch`: `bump_vol` bumps the raw surface
then refetches the cached vol for that id (forward unchanged). -/
def PricingContextPrefetch.bump_vol (s : PricingContextPrefetch RC DS VS FWD)
    (build : ForwardBuilder RC DS FWD) (id : String) (bump : Bump VS)
    (saved : SavedPrefetch RC DS VS FWD) :
    Except String (Bool × PricingContextPrefetch RC DS VS FWD × SavedPrefetch RC DS VS FWD) := do
  let r ← s.context.bump_vol id bump saved.saved_data
  PricingContextPrefetch.refetch
    { s with context := r.2.1 } build id false r.1
    { saved with saved_data := r.2.2 }

/-- Rust `Bumpable for PricingContextPrefetch`: `bump_discount_date` delegates to
the inner market data; no cached artifact depends on the discount date. -/
def PricingContextPrefetch.bump_discount_date
    (s : PricingContextPrefetch RC DS VS FWD) (replacement : Date)
    (saved : SavedPrefetch RC DS VS FWD) :
    Except String (Bool × PricingContextPrefetch RC DS VS FWD × SavedPrefetch RC DS VS FWD) := do
  let r ← s.context.bump_discount_date replacement saved.saved_data
  .ok (r.1, { s with context := r.2.1 }, { saved with saved_data := r.2.2 })

/-- Rust `Bumpable for PricingContextPrefetch`: `forward_id_by_credit_id` answers
from the dependency record. -/
def PricingContextPrefetch.forward_id_by_credit_id
    (s : PricingContextPrefetch RC DS VS FWD) (credit_id : String) :
    Except String (List String) :=
  .ok (s.dependencies.forward_ids_by_credit_id credit_id)

/-- Rust `Bumpable for PricingContextPrefetch`: `restore` restores the inner
market data, then copy-merges the forward and vol snapshots over the cache. -/
def PricingContextPrefetch.restore (s : PricingContextPrefetch RC DS VS FWD)
    (saved : SavedPrefetch RC DS VS FWD) : PricingContextPrefetch RC DS VS FWD :=
  { s with
    context := s.context.restore saved.saved_data
    forward_curves := copy_from_saved s.forward_curves saved.forward_curves
    vol_surfaces := copy_from_saved s.vol_surfaces saved.vol_surfaces }

/-! ## Self-pricer driver (`pricers/selfpricer.rs`), bumpable facade -/

/-- Rust `SelfPricer` in `pricers/selfpricer.rs`: a weighted instrument list and
the prefetched pricing context. -/
structure SelfPricer (RC DS VS FWD : Type) where
  instruments : List (Value × Instrument VS FWD)
  context : PricingContextPrefetch RC DS VS FWD

/-- Rust `Bumpable for SelfPricer`: `forward_id_by_credit_id` delegates to the
prefetch context. -/
def SelfPricer.forward_id_by_credit_id (s : SelfPricer RC DS VS FWD)
    (credit_id : String) : Except String (List String) :=
  s.context.forward_id_by_credit_id credit_id

end Risk

/-! ## Concrete instances

Closed instances of the model, used to evaluate the definitions at
concrete inputs.  All four artifact type parameters are instantiated
with `ℚ` so that every state is a value the kernel can compute with. -/

namespace Ex

/-- A sample additive bump: `apply(old) = old + 1`. -/
def exBump : Bump ℚ := ⟨fun v => v + 1⟩

/-- A sample instrument with id `A` and credit id `C`; its vol dynamics
decorators are the identity. -/
def exInst : Instrument ℚ ℚ :=
  ⟨"A", "C", fun d => d, fun v _ => .ok v, fun v _ => .ok v⟩

/-- A sample instrument with id `Z` (absent from every table). -/
def exInstZ : Instrument ℚ ℚ :=
  ⟨"Z", "C", fun d => d, fun v _ => .ok v, fun v _ => .ok v⟩

/-- A sample market data store: spot `A` is 100, yield curve `C` is 1,
borrow curve `A` is 2, dividends `A` are 3, vol surface `A` is 4. -/
def exMD : MarketData ℚ ℚ ℚ :=
  ⟨0, none,
   StrMap.empty.insert "A" 100,
   StrMap.empty.insert "C" 1,
   StrMap.empty.insert "A" 2,
   StrMap.empty.insert "A" 3,
   StrMap.empty.insert "A" 4⟩

/-- A sample forward builder that always constructs the forward 9. -/
def exBuild : ForwardBuilder ℚ ℚ ℚ := fun _ _ _ _ _ _ _ => .ok 9

/-- A sample dependency record: instrument `A` requires a forward (high
water mark 0) and a vol surface (high water mark 0). -/
def exDeps : DependencyCollector ℚ ℚ :=
  ⟨0, [(exInst, 0)], StrMap.empty.insert "A" 0,
   StrMap.empty.insert "A" exInst, fun _ => []⟩

/-- The prefetch state produced from `exMD` and `exDeps`: forward `A` is 9,
vol surface `A` is 4. -/
def exPrefetch : PricingContextPrefetch ℚ ℚ ℚ ℚ :=
  ⟨exMD, exDeps, StrMap.empty.insert "A" 9, StrMap.empty.insert "A" 4⟩

/-- A prefetch state whose vol-surface cache is empty although instrument
`A` has a cached forward and is resolvable. -/
def exPrefetchNoVol : PricingContextPrefetch ℚ ℚ ℚ ℚ :=
  ⟨exMD, exDeps, StrMap.empty.insert "A" 9, StrMap.empty⟩

/-- A prefetch state whose cached vol surface for `A` is 5 (the raw surface
in the market data is 4, so a refetch rebuilds to 4). -/
def exPrefetchVol5 : PricingContextPrefetch ℚ ℚ ℚ ℚ :=
  ⟨exMD, exDeps, StrMap.empty.insert "A" 9, StrMap.empty.insert "A" 5⟩

/-- A dependency record whose vol requirements contain id `V` but whose
forward requirements are empty. -/
def exDepsVolOnly : DependencyCollector ℚ ℚ :=
  ⟨0, [], StrMap.empty.insert "V" 0, StrMap.empty, fun _ => []⟩

/-- A sample rate curve with constant discount factor 9/10. -/
def exCurve : RateCurve := ⟨fun _ _ => (9 : ℚ) / 10⟩

/-- A sample pricing context: spot date 0, discount date 2, every yield
curve resolves to `exCurve`, every spot is 5. -/
def exCtx : PricingContext :=
  ⟨0, some 2, fun _ _ => .ok exCurve, fun _ => .ok 5⟩

/-- A sample pricing context with no discount date. -/
def exCtxNone : PricingContext :=
  ⟨0, none, fun _ _ => .ok exCurve, fun _ => .ok 5⟩

/-- A currency with settlement rule T+2 (so its pay date off spot date 0 is
2, matching the discount date of `exCtx`). -/
def exCur : Currency := ⟨"GBP", fun d => d + 2⟩

/-- A currency with settlement rule T+3 (mismatching `exCtx`). -/
def exCur3 : Currency := ⟨"GBP", fun d => d + 3⟩

/-- A credit entity with settlement rule T+2. -/
def exCE : CreditEntity := ⟨"LSE", fun d => d + 2⟩

/-- An equity with settlement rule T+2. -/
def exEq : Equity := ⟨"BP.L", "LSE", fun d => d + 2⟩

/-- An equity with settlement rule T+3. -/
def exEq3 : Equity := ⟨"BP.L", "LSE", fun d => d + 3⟩

/-- A zero coupon paying at date 10. -/
def exZero : ZeroCoupon := ⟨"GBP.10", "OPT", 10, fun d => d + 2⟩

/-- A zero coupon paying at date 2 (matching the discount date of `exCtx`). -/
def exZero2 : ZeroCoupon := ⟨"GBP.2", "OPT", 2, fun d => d + 2⟩

/-- A self-pricer over `exPrefetch` with no instruments (only its bumpable
facade is exercised). -/
def exSelfPricer : SelfPricer ℚ ℚ ℚ ℚ := ⟨[], exPrefetch⟩

end Ex

/-! ## Helper lemmas -/

theorem ok_bind {ε α β : Type} (a : α) (f : α → Except ε β) :
    ((Except.ok a : Except ε α) >>= f) = f a := rfl

theorem error_bind {ε α β : Type} (e : ε) (f : α → Except ε β) :
    ((Except.error e : Except ε α) >>= f) = Except.error e := rfl

theorem StrMap.get_insert_self {T : Type} (m : StrMap T) (k : String) (v : T) :
    m.insert k v k = some v := by
  simp [StrMap.insert]

theorem StrMap.isSome_insert {T : Type} (m : StrMap T) (k q : String) (v : T)
    (h : (m q).isSome = true) : ((m.insert k v) q).isSome = true := by
  by_cases hq : q = k <;> simp [StrMap.insert, hq, h]

theorem discount_from_spot_of_none {i : InstrumentInfo} {ctx : PricingContext}
    (h : ctx.discount_date = none) : discount_from_spot i ctx = .ok 1 := by
  simp [discount_from_spot, h]

theorem discount_from_spot_of_pay {i : InstrumentInfo} {ctx : PricingContext}
    {dd : Date} (h : ctx.discount_date = some dd)
    (h2 : dd = i.settlement ctx.spot_date) : discount_from_spot i ctx = .ok 1 := by
  simp [discount_from_spot, h, h2]

theorem discount_from_spot_of_df {i : InstrumentInfo} {ctx : PricingContext}
    {dd : Date} {yc : RateCurve} (h : ctx.discount_date = some dd)
    (h2 : dd ≠ i.settlement ctx.spot_date)
    (h3 : ctx.yield_curve i.credit_id (max dd (i.settlement ctx.spot_date)) = .ok yc) :
    discount_from_spot i ctx = .ok (yc.df (i.settlement ctx.spot_date) dd) := by
  simp [discount_from_spot, h, h2, h3, ok_bind]

/-! ## Claim C6 -/

/-- C6: for every Currency and every CreditEntity, price equals
`discount_from_spot`: 1 when the context has no discount date; 1 when the
discount date equals the settlement rule applied to the context's spot
date; otherwise the discount factor from the settlement-applied spot date
to the discount date taken from the yield curve keyed by the instrument's
credit id (its own id). -/
theorem c6_currency_credit_entity_price (c : Currency) (ce : CreditEntity)
    (ctx : PricingContext) (dd : Date) (yc : RateCurve) :
    Currency.price c ctx = discount_from_spot c.info ctx ∧
    CreditEntity.price ce ctx = discount_from_spot ce.info ctx ∧
    (ctx.discount_date = none →
      Currency.price c ctx = .ok 1 ∧ CreditEntity.price ce ctx = .ok 1) ∧
    (ctx.discount_date = some dd → dd = c.settlement ctx.spot_date →
      Currency.price c ctx = .ok 1) ∧
    (ctx.discount_date = some dd → dd ≠ c.settlement ctx.spot_date →
      ctx.yield_curve c.credit_id (max dd (c.settlement ctx.spot_date)) = .ok yc →
      Currency.price c ctx = .ok (yc.df (c.settlement ctx.spot_date) dd)) ∧
    (ctx.discount_date = some dd → dd = ce.settlement ctx.spot_date →
      CreditEntity.price ce ctx = .ok 1) ∧
    (ctx.discount_date = some dd → dd ≠ ce.settlement ctx.spot_date →
      ctx.yield_curve ce.credit_id (max dd (ce.settlement ctx.spot_date)) = .ok yc →
      CreditEntity.price ce ctx = .ok (yc.df (ce.settlement ctx.spot_date) dd)) := by
  refine ⟨rfl, rfl, ?_, ?_, ?_, ?_, ?_⟩
  · intro h
    exact ⟨discount_from_spot_of_none h, discount_from_spot_of_none h⟩
  · intro h h2
    exact discount_from_spot_of_pay h h2
  · intro h h2 h3
    exact discount_from_spot_of_df h h2 h3
  · intro h h2
    exact discount_from_spot_of_pay h h2
  · intro h h2 h3
    exact discount_from_spot_of_df h h2 h3

/-- C6 witness: the sample currency with matching settlement prices to 1;
with mismatching settlement it prices to the yield-curve discount factor;
the sample credit entity prices to 1. -/
theorem c6_currency_credit_entity_price_witness :
    Ex.exCtx.discount_date = some 2 ∧
    (2 : Date) = Ex.exCur.settlement Ex.exCtx.spot_date ∧
    Currency.price Ex.exCur Ex.exCtx = .ok 1 ∧
    (2 : Date) ≠ Ex.exCur3.settlement Ex.exCtx.spot_date ∧
    Ex.exCtx.yield_curve Ex.exCur3.credit_id
      (max 2 (Ex.exCur3.settlement Ex.exCtx.spot_date)) = .ok Ex.exCurve ∧
    Currency.price Ex.exCur3 Ex.exCtx =
      .ok (Ex.exCurve.df (Ex.exCur3.settlement Ex.exCtx.spot_date) 2) ∧
    (2 : Date) = Ex.exCE.settlement Ex.exCtx.spot_date ∧
    CreditEntity.price Ex.exCE Ex.exCtx = .ok 1 :=
  ⟨rfl, by decide,
   (c6_currency_credit_entity_price Ex.exCur Ex.exCE Ex.exCtx 2 Ex.exCurve).2.2.2.1
     rfl (by decide),
   by decide, rfl,
   (c6_currency_credit_entity_price Ex.exCur3 Ex.exCE Ex.exCtx 2 Ex.exCurve).2.2.2.2.1
     rfl (by decide) rfl,
   by decide,
   (c6_currency_credit_entity_price Ex.exCur Ex.exCE Ex.exCtx 2 Ex.exCurve).2.2.2.2.2.1
     rfl (by decide)⟩

/-! ## Claim C7 -/

/-- C7: for every Equity, price equals the context's spot for the equity's
id multiplied by `discount_from_spot`; when the discount date equals the
settlement-applied spot date the price equals the spot exactly. -/
theorem c7_equity_price (e : Equity) (ctx : PricingContext) (s d : Value)
    (dd : Date) :
    (discount_from_spot e.info ctx = .ok d → ctx.spot e.id = .ok s →
      Equity.price e ctx = .ok (s * d)) ∧
    (ctx.discount_date = some dd → dd = e.settlement ctx.spot_date →
      ctx.spot e.id = .ok s → Equity.price e ctx = .ok s) := by
  constructor
  · intro h1 h2
    simp [Equity.price, h1, h2, ok_bind]
  · intro h h2 hs
    have hdf : discount_from_spot e.info ctx = .ok 1 :=
      discount_from_spot_of_pay h h2
    simp [Equity.price, hdf, hs, ok_bind]

/-- C7 witness: the sample equity with matching settlement prices exactly
to its spot 5; with mismatching settlement it prices to spot times the
discount factor. -/
theorem c7_equity_price_witness :
    Ex.exCtx.discount_date = some 2 ∧
    (2 : Date) = Ex.exEq.settlement Ex.exCtx.spot_date ∧
    Ex.exCtx.spot Ex.exEq.id = .ok 5 ∧
    Equity.price Ex.exEq Ex.exCtx = .ok 5 ∧
    discount_from_spot Ex.exEq3.info Ex.exCtx =
      .ok (Ex.exCurve.df (Ex.exEq3.settlement Ex.exCtx.spot_date) 2) ∧
    Equity.price Ex.exEq3 Ex.exCtx =
      .ok (5 * Ex.exCurve.df (Ex.exEq3.settlement Ex.exCtx.spot_date) 2) :=
  ⟨rfl, by decide, rfl,
   (c7_equity_price Ex.exEq Ex.exCtx 5 1 2).2 rfl (by decide) rfl,
   rfl,
   (c7_equity_price Ex.exEq3 Ex.exCtx 5
     (Ex.exCurve.df (Ex.exEq3.settlement Ex.exCtx.spot_date) 2) 2).1 rfl rfl⟩

/-! ## Claim C8 -/

/-- C8: for every ZeroCoupon, the effective discount date is the context's
discount date when present, else the settlement-applied spot date; the
price is exactly 1 when the effective discount date equals the payment
date, and otherwise the yield-curve discount factor from the payment date
to the effective discount date, with the curve keyed by the zero's credit
id. -/
theorem c8_zero_coupon_price (z : ZeroCoupon) (ctx : PricingContext)
    (yc : RateCurve) (dd : Date) :
    (ctx.discount_date = some dd → z.effective_discount_date ctx = dd) ∧
    (ctx.discount_date = none →
      z.effective_discount_date ctx = z.settlement ctx.spot_date) ∧
    (z.effective_discount_date ctx = z.payment_date →
      ZeroCoupon.price z ctx = .ok 1) ∧
    (z.effective_discount_date ctx ≠ z.payment_date →
      ctx.yield_curve z.credit_id
        (max (z.effective_discount_date ctx) z.payment_date) = .ok yc →
      ZeroCoupon.price z ctx =
        .ok (yc.df z.payment_date (z.effective_discount_date ctx))) := by
  have hp : ZeroCoupon.price z ctx =
      (if z.effective_discount_date ctx = z.payment_date then
        (.ok 1 : Except String Value)
      else do
        let yc ← ctx.yield_curve z.credit_id
          (max (z.effective_discount_date ctx) z.payment_date)
        .ok (yc.df z.payment_date (z.effective_discount_date ctx))) := rfl
  refine ⟨?_, ?_, ?_, ?_⟩
  · intro h
    simp [ZeroCoupon.effective_discount_date, h]
  · intro h
    simp [ZeroCoupon.effective_discount_date, h]
  · intro h
    rw [hp, if_pos h]
  · intro h h3
    rw [hp, if_neg h, h3, ok_bind]

/-- C8 witness: the sample zero paying at the discount date prices to 1;
the sample zero paying later prices to the discount factor, both when the
discount date is given and when it is settlement-implied. -/
theorem c8_zero_coupon_price_witness :
    Ex.exCtx.discount_date = some 2 ∧
    Ex.exZero2.effective_discount_date Ex.exCtx = Ex.exZero2.payment_date ∧
    ZeroCoupon.price Ex.exZero2 Ex.exCtx = .ok 1 ∧
    Ex.exZero.effective_discount_date Ex.exCtx ≠ Ex.exZero.payment_date ∧
    Ex.exCtx.yield_curve Ex.exZero.credit_id
      (max (Ex.exZero.effective_discount_date Ex.exCtx) Ex.exZero.payment_date) =
      .ok Ex.exCurve ∧
    ZeroCoupon.price Ex.exZero Ex.exCtx =
      .ok (Ex.exCurve.df Ex.exZero.payment_date
        (Ex.exZero.effective_discount_date Ex.exCtx)) ∧
    Ex.exCtxNone.discount_date = none ∧
    Ex.exZero.effective_discount_date Ex.exCtxNone =
      Ex.exZero.settlement Ex.exCtxNone.spot_date ∧
    ZeroCoupon.price Ex.exZero Ex.exCtxNone =
      .ok (Ex.exCurve.df Ex.exZero.payment_date
        (Ex.exZero.effective_discount_date Ex.exCtxNone)) :=
  ⟨rfl, by decide,
   (c8_zero_coupon_price Ex.exZero2 Ex.exCtx Ex.exCurve 2).2.2.1 (by decide),
   by decide, rfl,
   (c8_zero_coupon_price Ex.exZero Ex.exCtx Ex.exCurve 2).2.2.2 (by decide) rfl,
   rfl,
   (c8_zero_coupon_price Ex.exZero Ex.exCtxNone Ex.exCurve 2).2.1 rfl,
   (c8_zero_coupon_price Ex.exZero Ex.exCtxNone Ex.exCurve 2).2.2.2 (by decide) rfl⟩

/-! ## Claim C9 -/

/-- C9: for every replacement date and ledger, `bump_discount_date` copies
the pre-bump discount date into the ledger, sets the replaced flag, sets
the discount date to the replacement, and returns true exactly when the
new discount date differs from the pre-bump one — even when the
replacement equals the current discount date the ledger is still written
and false is returned.  The prefetch context delegates to the inner
market data. -/
theorem c9_bump_discount_date {RC DS VS FWD : Type} (md : MarketData RC DS VS)
    (r : Date) (save : SavedData RC DS VS)
    (p : PricingContextPrefetch RC DS VS FWD) (ps : SavedPrefetch RC DS VS FWD) :
    md.bump_discount_date r save =
      .ok (decide (md.discount_date ≠ some r),
        { md with discount_date := some r },
        { save with
          discount_date := md.discount_date
          replaced_discount_date := true }) ∧
    (decide (md.discount_date ≠ some r) = true ↔ md.discount_date ≠ some r) ∧
    p.bump_discount_date r ps =
      .ok (decide (p.context.discount_date ≠ some r),
        { p with context := { p.context with discount_date := some r } },
        { ps with saved_data :=
          { ps.saved_data with
            discount_date := p.context.discount_date
            replaced_discount_date := true } }) :=
  ⟨rfl, by simp, rfl⟩

/-- C9 witness: bumping the sample market data (discount date absent) to
date 2 writes the ledger and returns true; bumping the result to 2 again
still writes the ledger but returns false. -/
theorem c9_bump_discount_date_witness :
    Ex.exMD.bump_discount_date 2 SavedData.new =
      .ok (true, { Ex.exMD with discount_date := some 2 },
        { SavedData.new with
          discount_date := none
          replaced_discount_date := true }) ∧
    ({ Ex.exMD with discount_date := some 2 } :
        MarketData ℚ ℚ ℚ).bump_discount_date 2 SavedData.new =
      .ok (false, { Ex.exMD with discount_date := some 2 },
        { SavedData.new with
          discount_date := some 2
          replaced_discount_date := true }) := by
  constructor
  · rw [(c9_bump_discount_date Ex.exMD 2 SavedData.new Ex.exPrefetch
      SavedPrefetch.new).1]
    rfl
  · rw [(c9_bump_discount_date ({ Ex.exMD with discount_date := some 2 } :
      MarketData ℚ ℚ ℚ) 2 SavedData.new Ex.exPrefetch SavedPrefetch.new).1]
    rfl

/-! ## Claim C10 -/

/-- C10: `MarketData::forward_id_by_credit_id` always returns the
not-available error; `PricingContextPrefetch` answers the query from its
dependency record, and `SelfPricer` delegates to its prefetch context. -/
theorem c10_forward_id_by_credit_id {RC DS VS FWD : Type}
    (md : MarketData RC DS VS) (p : PricingContextPrefetch RC DS VS FWD)
    (sp : SelfPricer RC DS VS FWD) (credit_id : String) :
    md.forward_id_by_credit_id credit_id =
      .error "Forward id from credit id mapping not available you need to use PrefetchedPricingContext" ∧
    p.forward_id_by_credit_id credit_id =
      .ok (p.dependencies.forward_ids_by_credit_id credit_id) ∧
    sp.forward_id_by_credit_id credit_id =
      sp.context.forward_id_by_credit_id credit_id :=
  ⟨rfl, rfl, rfl⟩

/-- C10 witness: the concrete market data errors on the query while the
concrete prefetch context and self-pricer answer it (with the empty list
recorded in the sample dependency record). -/
theorem c10_forward_id_by_credit_id_witness :
    Ex.exMD.forward_id_by_credit_id "C" =
      .error "Forward id from credit id mapping not available you need to use PrefetchedPricingContext" ∧
    Ex.exPrefetch.forward_id_by_credit_id "C" = .ok [] ∧
    Ex.exSelfPricer.forward_id_by_credit_id "C" = .ok [] :=
  ⟨(c10_forward_id_by_credit_id Ex.exMD Ex.exPrefetch Ex.exSelfPricer "C").1,
   ((c10_forward_id_by_credit_id Ex.exMD Ex.exPrefetch Ex.exSelfPricer "C").2.1).trans rfl,
   ((c10_forward_id_by_credit_id Ex.exMD Ex.exPrefetch Ex.exSelfPricer "C").2.2).trans rfl⟩

/-! ## Claim C4 -/

/-- C4: the prefetch context serves `forward_curve` and `vol_surface` from
its caches by id, failing a miss with an error worded
"incorrect dependencies" that names the id; `spot_date`, `discount_date`,
`yield_curve`, `spot` and `correlation` delegate to the inner market data. -/
theorem c4_cache_reads_and_delegation {RC DS VS FWD : Type}
    (p : PricingContextPrefetch RC DS VS FWD) (inst : Instrument VS FWD)
    (hwm : Date) (f : FWD) (v : VS) (fwd0 : FWD) :
    (p.forward_curves inst.id = some f → p.forward_curve inst hwm = .ok f) ∧
    (p.forward_curves inst.id = none →
      p.forward_curve inst hwm =
        .error ("Forward not found (incorrect dependencies?): \x27" ++ inst.id ++ "\x27")) ∧
    (p.vol_surfaces inst.id = some v → p.vol_surface inst fwd0 hwm = .ok v) ∧
    (p.vol_surfaces inst.id = none →
      p.vol_surface inst fwd0 hwm =
        .error ("Vol Surface not found (incorrect dependencies?): \x27" ++ inst.id ++ "\x27")) ∧
    p.spot_date = p.context.spot_date ∧
    p.discount_date = p.context.discount_date ∧
    (∀ credit_id h, p.yield_curve credit_id h = p.context.yield_curve credit_id h) ∧
    (∀ id, p.spot id = p.context.spot id) ∧
    (∀ a b, p.correlation a b = p.context.correlation a b) := by
  refine ⟨?_, ?_, ?_, ?_, rfl, rfl, fun _ _ => rfl, fun _ => rfl, fun _ _ => rfl⟩
  · intro h
    simp [PricingContextPrefetch.forward_curve, find_cached_data, h]
  · intro h
    simp [PricingContextPrefetch.forward_curve, find_cached_data, h]
  · intro h
    simp [PricingContextPrefetch.vol_surface, find_cached_data, h]
  · intro h
    simp [PricingContextPrefetch.vol_surface, find_cached_data, h]

/-- C4 witness: on the sample prefetch state, reading the forward and vol
surface of the prefetched instrument hits the cache, and reading those of
the undeclared instrument `Z` produces the incorrect-dependencies errors. -/
theorem c4_cache_reads_and_delegation_witness :
    Ex.exPrefetch.forward_curves Ex.exInst.id = some 9 ∧
    Ex.exPrefetch.forward_curve Ex.exInst 0 = .ok 9 ∧
    Ex.exPrefetch.vol_surfaces Ex.exInst.id = some 4 ∧
    Ex.exPrefetch.vol_surface Ex.exInst 9 0 = .ok 4 ∧
    Ex.exPrefetch.forward_curves Ex.exInstZ.id = none ∧
    Ex.exPrefetch.forward_curve Ex.exInstZ 0 =
      .error ("Forward not found (incorrect dependencies?): \x27" ++ Ex.exInstZ.id ++ "\x27") ∧
    Ex.exPrefetch.vol_surface Ex.exInstZ 9 0 =
      .error ("Vol Surface not found (incorrect dependencies?): \x27" ++ Ex.exInstZ.id ++ "\x27") ∧
    Ex.exPrefetch.spot Ex.exInst.id = Ex.exPrefetch.context.spot Ex.exInst.id :=
  ⟨rfl,
   (c4_cache_reads_and_delegation Ex.exPrefetch Ex.exInst 0 9 4 9).1 rfl,
   rfl,
   (c4_cache_reads_and_delegation Ex.exPrefetch Ex.exInst 0 9 4 9).2.2.1 rfl,
   rfl,
   (c4_cache_reads_and_delegation Ex.exPrefetch Ex.exInstZ 0 9 4 9).2.1 rfl,
   (c4_cache_reads_and_delegation Ex.exPrefetch Ex.exInstZ 0 9 4 9).2.2.2.1 rfl,
   (c4_cache_reads_and_delegation Ex.exPrefetch Ex.exInst 0 9 4 9).2.2.2.2.2.2.2.1
     Ex.exInst.id⟩

/-! ## Claim C5 -/

theorem refetch_not_bumped {RC DS VS FWD : Type}
    (s : PricingContextPrefetch RC DS VS FWD) (build : ForwardBuilder RC DS FWD)
    (id : String) (saved : SavedPrefetch RC DS VS FWD) :
    s.refetch build id false false saved = .ok (false, s, saved) := rfl

theorem refetch_each_not_bumped {RC DS VS FWD : Type}
    (build : ForwardBuilder RC DS FWD) (ids : List String)
    (s : PricingContextPrefetch RC DS VS FWD) (l : SavedPrefetch RC DS VS FWD) :
    refetch_each build false ids s l = .ok (s, l) := by
  induction ids generalizing s l with
  | nil => rfl
  | cons id rest ih =>
    simp [refetch_each, refetch_not_bumped, ok_bind, ih]

/-- C5: bumping an id absent from the corresponding market-data table
returns false (not an error) and leaves the market data, the caches and
the ledger unchanged — both directly on the market data and through the
prefetch context — and therefore leaves any price computed from that state
unchanged; bumping a present id saves the old value in the ledger,
replaces the slot with the bump applied to it, and returns true. -/
theorem c5_bump_absent_present {RC DS VS FWD : Type} (md : MarketData RC DS VS)
    (save : SavedData RC DS VS) (id : String) (bs : Bump Value) (br : Bump RC)
    (bd : Bump DS) (bv : Bump VS) (vs : Value) (vr : RC) (vd : DS) (vv : VS)
    (p : PricingContextPrefetch RC DS VS FWD) (saved : SavedPrefetch RC DS VS FWD)
    (build : ForwardBuilder RC DS FWD) :
    (md.spots id = none → md.bump_spot id bs save = .ok (false, md, save)) ∧
    (md.yield_curves id = none → md.bump_yield id br save = .ok (false, md, save)) ∧
    (md.borrow_curves id = none → md.bump_borrow id br save = .ok (false, md, save)) ∧
    (md.dividends id = none → md.bump_divs id bd save = .ok (false, md, save)) ∧
    (md.vol_surfaces id = none → md.bump_vol id bv save = .ok (false, md, save)) ∧
    (md.spots id = some vs → md.bump_spot id bs save =
      .ok (true, { md with spots := md.spots.insert id (bs.apply vs) },
        { save with spots := save.spots.insert id vs })) ∧
    (md.yield_curves id = some vr → md.bump_yield id br save =
      .ok (true, { md with yield_curves := md.yield_curves.insert id (br.apply vr) },
        { save with yield_curves := save.yield_curves.insert id vr })) ∧
    (md.borrow_curves id = some vr → md.bump_borrow id br save =
      .ok (true, { md with borrow_curves := md.borrow_curves.insert id (br.apply vr) },
        { save with borrow_curves := save.borrow_curves.insert id vr })) ∧
    (md.dividends id = some vd → md.bump_divs id bd save =
      .ok (true, { md with dividends := md.dividends.insert id (bd.apply vd) },
        { save with dividends := save.dividends.insert id vd })) ∧
    (md.vol_surfaces id = some vv → md.bump_vol id bv save =
      .ok (true, { md with vol_surfaces := md.vol_surfaces.insert id (bv.apply vv) },
        { save with vol_surfaces := save.vol_surfaces.insert id vv })) ∧
    (p.context.spots id = none →
      p.bump_spot build id bs saved = .ok (false, p, saved)) ∧
    (p.context.yield_curves id = none →
      p.bump_yield build id br saved = .ok (false, p, saved)) ∧
    (p.context.borrow_curves id = none →
      p.bump_borrow build id br saved = .ok (false, p, saved)) ∧
    (p.context.dividends id = none →
      p.bump_divs build id bd saved = .ok (false, p, saved)) ∧
    (p.context.vol_surfaces id = none →
      p.bump_vol build id bv saved = .ok (false, p, saved)) := by
  refine ⟨?_, ?_, ?_, ?_, ?_, ?_, ?_, ?_, ?_, ?_, ?_, ?_, ?_, ?_, ?_⟩
  · intro h
    unfold MarketData.bump_spot apply_bump
    rw [h]
  · intro h
    unfold MarketData.bump_yield apply_bump
    rw [h]
  · intro h
    unfold MarketData.bump_borrow apply_bump
    rw [h]
  · intro h
    unfold MarketData.bump_divs apply_bump
    rw [h]
  · intro h
    unfold MarketData.bump_vol apply_bump
    rw [h]
  · intro h
    unfold MarketData.bump_spot apply_bump
    rw [h]
  · intro h
    unfold MarketData.bump_yield apply_bump
    rw [h]
  · intro h
    unfold MarketData.bump_borrow apply_bump
    rw [h]
  · intro h
    unfold MarketData.bump_divs apply_bump
    rw [h]
  · intro h
    unfold MarketData.bump_vol apply_bump
    rw [h]
  · intro h
    have h1 : p.context.bump_spot id bs saved.saved_data =
        .ok (false, p.context, saved.saved_data) := by
      unfold MarketData.bump_spot apply_bump
      rw [h]
    unfold PricingContextPrefetch.bump_spot
    rw [h1]
    rfl
  · intro h
    have h1 : p.context.bump_yield id br saved.saved_data =
        .ok (false, p.context, saved.saved_data) := by
      unfold MarketData.bump_yield apply_bump
      rw [h]
    unfold PricingContextPrefetch.bump_yield
    rw [h1, ok_bind]
    show (do
      let r2 ← refetch_each build false
        (p.dependencies.forward_ids_by_credit_id id) p saved
      Except.ok (false, r2.1, r2.2) :
      Except String (Bool × PricingContextPrefetch RC DS VS FWD ×
        SavedPrefetch RC DS VS FWD)) = .ok (false, p, saved)
    rw [refetch_each_not_bumped, ok_bind]
  · intro h
    have h1 : p.context.bump_borrow id br saved.saved_data =
        .ok (false, p.context, saved.saved_data) := by
      unfold MarketData.bump_borrow apply_bump
      rw [h]
    unfold PricingContextPrefetch.bump_borrow
    rw [h1]
    rfl
  · intro h
    have h1 : p.context.bump_divs id bd saved.saved_data =
        .ok (false, p.context, saved.saved_data) := by
      unfold MarketData.bump_divs apply_bump
      rw [h]
    unfold PricingContextPrefetch.bump_divs
    rw [h1]
    rfl
  · intro h
    have h1 : p.context.bump_vol id bv saved.saved_data =
        .ok (false, p.context, saved.saved_data) := by
      unfold MarketData.bump_vol apply_bump
      rw [h]
    unfold PricingContextPrefetch.bump_vol
    rw [h1]
    rfl

/-- C5 witness: bumping the absent id `Z` on the sample market data and on
the sample prefetch state is a no-op returning false in each of the five
tables; bumping the present ids saves the old value, applies the bump and
returns true. -/
theorem c5_bump_absent_present_witness :
    Ex.exMD.spots "Z" = none ∧
    Ex.exMD.bump_spot "Z" ⟨fun _ => 7⟩ SavedData.new = .ok (false, Ex.exMD, SavedData.new) ∧
    Ex.exMD.bump_yield "Z" ⟨fun _ => 7⟩ SavedData.new = .ok (false, Ex.exMD, SavedData.new) ∧
    Ex.exMD.bump_borrow "Z" ⟨fun _ => 7⟩ SavedData.new = .ok (false, Ex.exMD, SavedData.new) ∧
    Ex.exMD.bump_divs "Z" ⟨fun _ => 7⟩ SavedData.new = .ok (false, Ex.exMD, SavedData.new) ∧
    Ex.exMD.bump_vol "Z" ⟨fun _ => 7⟩ SavedData.new = .ok (false, Ex.exMD, SavedData.new) ∧
    Ex.exMD.spots "A" = some 100 ∧
    Ex.exMD.bump_spot "A" ⟨fun _ => 7⟩ SavedData.new =
      .ok (true, { Ex.exMD with spots := Ex.exMD.spots.insert "A" 7 },
        { SavedData.new with
          spots := (SavedData.new : SavedData ℚ ℚ ℚ).spots.insert "A" 100 }) ∧
    Ex.exMD.yield_curves "C" = some 1 ∧
    Ex.exMD.bump_yield "C" ⟨fun _ => 7⟩ SavedData.new =
      .ok (true, { Ex.exMD with yield_curves := Ex.exMD.yield_curves.insert "C" 7 },
        { SavedData.new with
          yield_curves := (SavedData.new : SavedData ℚ ℚ ℚ).yield_curves.insert "C" 1 }) ∧
    Ex.exPrefetch.context.spots "Z" = none ∧
    Ex.exPrefetch.bump_spot Ex.exBuild "Z" ⟨fun _ => 7⟩ SavedPrefetch.new =
      .ok (false, Ex.exPrefetch, SavedPrefetch.new) ∧
    Ex.exPrefetch.bump_yield Ex.exBuild "Z" ⟨fun _ => 7⟩ SavedPrefetch.new =
      .ok (false, Ex.exPrefetch, SavedPrefetch.new) ∧
    Ex.exPrefetch.bump_borrow Ex.exBuild "Z" ⟨fun _ => 7⟩ SavedPrefetch.new =
      .ok (false, Ex.exPrefetch, SavedPrefetch.new) ∧
    Ex.exPrefetch.bump_divs Ex.exBuild "Z" ⟨fun _ => 7⟩ SavedPrefetch.new =
      .ok (false, Ex.exPrefetch, SavedPrefetch.new) ∧
    Ex.exPrefetch.bump_vol Ex.exBuild "Z" ⟨fun _ => 7⟩ SavedPrefetch.new =
      .ok (false, Ex.exPrefetch, SavedPrefetch.new) := by
  refine ⟨rfl, ?_, ?_, ?_, ?_, ?_, rfl, ?_, rfl, ?_, rfl, ?_, ?_, ?_, ?_, ?_⟩
  · exact (c5_bump_absent_present Ex.exMD SavedData.new "Z" ⟨fun _ => 7⟩ ⟨fun _ => 7⟩
      ⟨fun _ => 7⟩ ⟨fun _ => 7⟩ 0 0 0 0 Ex.exPrefetch SavedPrefetch.new Ex.exBuild).1 rfl
  · exact (c5_bump_absent_present Ex.exMD SavedData.new "Z" ⟨fun _ => 7⟩ ⟨fun _ => 7⟩
      ⟨fun _ => 7⟩ ⟨fun _ => 7⟩ 0 0 0 0 Ex.exPrefetch SavedPrefetch.new Ex.exBuild).2.1 rfl
  · exact (c5_bump_absent_present Ex.exMD SavedData.new "Z" ⟨fun _ => 7⟩ ⟨fun _ => 7⟩
      ⟨fun _ => 7⟩ ⟨fun _ => 7⟩ 0 0 0 0 Ex.exPrefetch SavedPrefetch.new Ex.exBuild).2.2.1 rfl
  · exact (c5_bump_absent_present Ex.exMD SavedData.new "Z" ⟨fun _ => 7⟩ ⟨fun _ => 7⟩
      ⟨fun _ => 7⟩ ⟨fun _ => 7⟩ 0 0 0 0 Ex.exPrefetch SavedPrefetch.new Ex.exBuild).2.2.2.1 rfl
  · exact (c5_bump_absent_present Ex.exMD SavedData.new "Z" ⟨fun _ => 7⟩ ⟨fun _ => 7⟩
      ⟨fun _ => 7⟩ ⟨fun _ => 7⟩ 0 0 0 0 Ex.exPrefetch SavedPrefetch.new Ex.exBuild).2.2.2.2.1 rfl
  · exact (c5_bump_absent_present Ex.exMD SavedData.new "A" ⟨fun _ => 7⟩ ⟨fun _ => 7⟩
      ⟨fun _ => 7⟩ ⟨fun _ => 7⟩ 100 0 0 0 Ex.exPrefetch SavedPrefetch.new Ex.exBuild).2.2.2.2.2.1 rfl
  · exact (c5_bump_absent_present Ex.exMD SavedData.new "C" ⟨fun _ => 7⟩ ⟨fun _ => 7⟩
      ⟨fun _ => 7⟩ ⟨fun _ => 7⟩ 0 1 0 0 Ex.exPrefetch SavedPrefetch.new Ex.exBuild).2.2.2.2.2.2.1 rfl
  · exact (c5_bump_absent_present Ex.exMD SavedData.new "Z" ⟨fun _ => 7⟩ ⟨fun _ => 7⟩
      ⟨fun _ => 7⟩ ⟨fun _ => 7⟩ 0 0 0 0 Ex.exPrefetch SavedPrefetch.new
      Ex.exBuild).2.2.2.2.2.2.2.2.2.2.1 rfl
  · exact (c5_bump_absent_present Ex.exMD SavedData.new "Z" ⟨fun _ => 7⟩ ⟨fun _ => 7⟩
      ⟨fun _ => 7⟩ ⟨fun _ => 7⟩ 0 0 0 0 Ex.exPrefetch SavedPrefetch.new
      Ex.exBuild).2.2.2.2.2.2.2.2.2.2.2.1 rfl
  · exact (c5_bump_absent_present Ex.exMD SavedData.new "Z" ⟨fun _ => 7⟩ ⟨fun _ => 7⟩
      ⟨fun _ => 7⟩ ⟨fun _ => 7⟩ 0 0 0 0 Ex.exPrefetch SavedPrefetch.new
      Ex.exBuild).2.2.2.2.2.2.2.2.2.2.2.2.1 rfl
  · exact (c5_bump_absent_present Ex.exMD SavedData.new "Z" ⟨fun _ => 7⟩ ⟨fun _ => 7⟩
      ⟨fun _ => 7⟩ ⟨fun _ => 7⟩ 0 0 0 0 Ex.exPrefetch SavedPrefetch.new
      Ex.exBuild).2.2.2.2.2.2.2.2.2.2.2.2.2.1 rfl
  · exact (c5_bump_absent_present Ex.exMD SavedData.new "Z" ⟨fun _ => 7⟩ ⟨fun _ => 7⟩
      ⟨fun _ => 7⟩ ⟨fun _ => 7⟩ 0 0 0 0 Ex.exPrefetch SavedPrefetch.new
      Ex.exBuild).2.2.2.2.2.2.2.2.2.2.2.2.2.2 rfl

/-! ## Claim C1 -/

/-- C1: the restore roundtrip fails when the same slot is bumped twice in
one transaction.  `apply_bump` inserts the current value into the ledger
unconditionally, so the second bump of spot `A` overwrites the first-touch
snapshot (100) with the once-bumped value (101); restoring then yields 101,
not the original 100.  The ledger therefore does not keep only the
first-touch snapshot per slot, and a price read off the restored state
differs from the original. -/
theorem c1_restore_after_double_bump_fails :
    ((do
      let r1 ← Ex.exMD.bump_spot "A" ⟨fun _ => 101⟩ SavedData.new
      let r2 ← r1.2.1.bump_spot "A" ⟨fun _ => 101⟩ r1.2.2
      pure ((r2.2.1.restore r2.2.2).spots "A")) :
      Except String (Option Value)) = .ok (some 101) ∧
    Ex.exMD.spots "A" = some 100 ∧
    some (101 : Value) ≠ some (100 : Value) ∧
    (Ex.exMD.restore SavedData.new).spots "A" = some 100 :=
  ⟨rfl, rfl, by decide, rfl⟩

/-! ## Claim C2 -/

/-- C2 counterexample: `refetch` called with `bumped_vol` set, a cached
forward and a resolvable instrument but no cached vol surface does NOT
return an error — it skips the vol step silently, returns `Ok(true)` and
leaves the ledger untouched. -/
theorem c2_refetch_missing_vol_no_error :
    Ex.exPrefetchNoVol.vol_surfaces "A" = none ∧
    (Ex.exPrefetchNoVol.forward_curves "A").isSome = true ∧
    (Ex.exPrefetchNoVol.dependencies.instrument_by_id "A").isSome = true ∧
    Ex.exPrefetchNoVol.refetch Ex.exBuild "A" false true SavedPrefetch.new =
      .ok (true, Ex.exPrefetchNoVol, SavedPrefetch.new) :=
  ⟨rfl, rfl, rfl, rfl⟩

/-- C2 amended: with neither flag set `refetch` returns false immediately
without touching state.  With `bumped_vol` set (cached forward present,
instrument resolvable): when a vol surface is cached for the id, the old
surface is snapshotted into the ledger and the surface is rebuilt — an
error is returned when the dependency record has no vol high-water mark;
when no vol surface is cached, the vol step is skipped silently with no
snapshot and no error.  A missing cached forward or unresolvable
instrument is an error. -/
theorem c2_refetch_vol_amended {RC DS VS FWD : Type}
    (s : PricingContextPrefetch RC DS VS FWD) (build : ForwardBuilder RC DS FWD)
    (id : String) (saved : SavedPrefetch RC DS VS FWD) (fwd : FWD)
    (inst : Instrument VS FWD) (vol : VS) (vhwm : Date) (nv : VS) :
    (s.refetch build id false false saved = .ok (false, s, saved)) ∧
    (s.forward_curves id = some fwd →
      s.dependencies.instrument_by_id id = some inst →
      s.vol_surfaces id = some vol →
      s.dependencies.vol_surface_hwm inst = some vhwm →
      s.context.vol_surface inst fwd vhwm = .ok nv →
      s.refetch build id false true saved =
        .ok (true, { s with vol_surfaces := s.vol_surfaces.insert id nv },
          { saved with vol_surfaces := saved.vol_surfaces.insert id vol })) ∧
    (s.forward_curves id = some fwd →
      s.dependencies.instrument_by_id id = some inst →
      s.vol_surfaces id = some vol →
      s.dependencies.vol_surface_hwm inst = none →
      s.refetch build id false true saved = .error "Cannot find vol") ∧
    (s.forward_curves id = some fwd →
      s.dependencies.instrument_by_id id = some inst →
      s.vol_surfaces id = none →
      s.refetch build id false true saved = .ok (true, s, saved)) ∧
    (s.forward_curves id = none →
      s.refetch build id false true saved =
        .error "Cannot find prefetched forward") ∧
    (s.forward_curves id = some fwd →
      s.dependencies.instrument_by_id id = none →
      s.refetch build id false true saved = .error "Cannot find instrument") := by
  refine ⟨rfl, ?_, ?_, ?_, ?_, ?_⟩
  · intro hf hi hv hh hs
    simp only [PricingContextPrefetch.refetch, hf, hi, hv, hh, hs, cond_true,
      cond_false, Bool.not_true, Bool.not_false, Bool.and_false, Bool.false_and,
      pure_bind, ok_bind]
  · intro hf hi hv hh
    simp only [PricingContextPrefetch.refetch, hf, hi, hv, hh, cond_true,
      cond_false, Bool.not_true, Bool.not_false, Bool.and_false, Bool.false_and,
      pure_bind, ok_bind]
    rfl
  · intro hf hi hv
    simp only [PricingContextPrefetch.refetch, hf, hi, hv, cond_true,
      cond_false, Bool.not_true, Bool.not_false, Bool.and_false, Bool.false_and,
      pure_bind, ok_bind]
  · intro hf
    simp only [PricingContextPrefetch.refetch, hf, cond_true, cond_false,
      Bool.not_true, Bool.not_false, Bool.and_false, Bool.false_and]
  · intro hf hi
    simp only [PricingContextPrefetch.refetch, hf, hi, cond_true, cond_false,
      Bool.not_true, Bool.not_false, Bool.and_false, Bool.false_and]

/-- C2 witness: on the sample prefetch state with cached vol 5, a vol-only
refetch snapshots 5 into the ledger and rebuilds the surface to the raw
market value 4; with neither flag set it returns false; with no cached
forward for `Z` it errors. -/
theorem c2_refetch_vol_amended_witness :
    Ex.exPrefetchVol5.refetch Ex.exBuild "A" false false SavedPrefetch.new =
      .ok (false, Ex.exPrefetchVol5, SavedPrefetch.new) ∧
    Ex.exPrefetchVol5.forward_curves "A" = some 9 ∧
    Ex.exPrefetchVol5.dependencies.instrument_by_id "A" = some Ex.exInst ∧
    Ex.exPrefetchVol5.vol_surfaces "A" = some 5 ∧
    Ex.exPrefetchVol5.dependencies.vol_surface_hwm Ex.exInst = some 0 ∧
    Ex.exPrefetchVol5.context.vol_surface Ex.exInst 9 0 = .ok 4 ∧
    Ex.exPrefetchVol5.refetch Ex.exBuild "A" false true SavedPrefetch.new =
      .ok (true,
        { Ex.exPrefetchVol5 with
          vol_surfaces := Ex.exPrefetchVol5.vol_surfaces.insert "A" 4 },
        { SavedPrefetch.new with
          vol_surfaces :=
            (SavedPrefetch.new : SavedPrefetch ℚ ℚ ℚ ℚ).vol_surfaces.insert "A" 5 }) ∧
    Ex.exPrefetchVol5.forward_curves "Z" = none ∧
    Ex.exPrefetchVol5.refetch Ex.exBuild "Z" false true SavedPrefetch.new =
      .error "Cannot find prefetched forward" :=
  ⟨(c2_refetch_vol_amended Ex.exPrefetchVol5 Ex.exBuild "A" SavedPrefetch.new 9
      Ex.exInst 5 0 4).1,
   rfl, rfl, rfl, rfl, rfl,
   (c2_refetch_vol_amended Ex.exPrefetchVol5 Ex.exBuild "A" SavedPrefetch.new 9
      Ex.exInst 5 0 4).2.1 rfl rfl rfl rfl rfl,
   rfl,
   (c2_refetch_vol_amended Ex.exPrefetchVol5 Ex.exBuild "Z" SavedPrefetch.new 9
      Ex.exInst 5 0 4).2.2.2.2.1 rfl⟩

/-! ## Claim C3 -/

theorem walk_dependencies_from_covers {RC DS VS FWD : Type}
    (context : MarketData RC DS VS) (build : ForwardBuilder RC DS FWD)
    (vd : StrMap Date) (l : List (Instrument VS FWD × Date)) :
    ∀ (fwds : StrMap FWD) (vols : StrMap VS) (F : StrMap FWD) (V : StrMap VS),
    walk_dependencies_from context build vd l fwds vols = .ok (F, V) →
    (∀ k, (fwds k).isSome = true → (F k).isSome = true) ∧
    (∀ k, (vols k).isSome = true → (V k).isSome = true) ∧
    (∀ pr ∈ l, (F pr.1.id).isSome = true) ∧
    (∀ pr ∈ l, (vd pr.1.id).isSome = true → (V pr.1.id).isSome = true) := by
  induction l with
  | nil =>
    intro fwds vols F V h
    simp only [walk_dependencies_from, Except.ok.injEq, Prod.mk.injEq] at h
    obtain ⟨hF, hV⟩ := h
    subst hF
    subst hV
    exact ⟨fun _ hk => hk, fun _ hk => hk, by simp, by simp⟩
  | cons hd tl ih =>
    intro fwds vols F V h
    obtain ⟨inst, hwm⟩ := hd
    cases hfc : context.forward_curve build inst hwm with
    | error e =>
      simp [walk_dependencies_from, hfc, error_bind] at h
    | ok forward =>
      simp only [walk_dependencies_from, hfc, ok_bind] at h
      cases hvd : vd inst.id with
      | none =>
        simp only [hvd, pure_bind] at h
        obtain ⟨mF, mV, cF, cV⟩ := ih (fwds.insert inst.id forward) vols F V h
        have hself : ((fwds.insert inst.id forward) inst.id).isSome = true := by
          rw [StrMap.get_insert_self]
          rfl
        refine ⟨fun k hk => mF k (StrMap.isSome_insert _ _ _ _ hk), mV, ?_, ?_⟩
        · intro pr hpr
          rcases List.mem_cons.mp hpr with heq | hmem
          · subst heq
            exact mF inst.id hself
          · exact cF pr hmem
        · intro pr hpr hk
          rcases List.mem_cons.mp hpr with heq | hmem
          · subst heq
            rw [hvd] at hk
            simp at hk
          · exact cV pr hmem hk
      | some vol_hwd =>
        cases hvs : context.vol_surface inst forward vol_hwd with
        | error e =>
          simp [hvd, hvs, error_bind] at h
        | ok vol =>
          simp only [hvd, hvs, ok_bind, pure_bind] at h
          obtain ⟨mF, mV, cF, cV⟩ :=
            ih (fwds.insert inst.id forward) (vols.insert inst.id vol) F V h
          have hselfF : ((fwds.insert inst.id forward) inst.id).isSome = true := by
            rw [StrMap.get_insert_self]
            rfl
          have hselfV : ((vols.insert inst.id vol) inst.id).isSome = true := by
            rw [StrMap.get_insert_self]
            rfl
          refine ⟨fun k hk => mF k (StrMap.isSome_insert _ _ _ _ hk),
            fun k hk => mV k (StrMap.isSome_insert _ _ _ _ hk), ?_, ?_⟩
          · intro pr hpr
            rcases List.mem_cons.mp hpr with heq | hmem
            · subst heq
              exact mF inst.id hselfF
            · exact cF pr hmem
          · intro pr hpr _
            rcases List.mem_cons.mp hpr with heq | hmem
            · subst heq
              exact mV inst.id hselfV
            · exact cV pr hmem (by assumption)

/-- C3 counterexample: a dependency record whose vol requirements contain
id `V` but whose forward requirements do not; immediately after successful
construction the cache has no vol surface for `V`. -/
theorem c3_vol_only_id_not_prefetched :
    Ex.exDepsVolOnly.vol_surfaces "V" = some 0 ∧
    (PricingContextPrefetch.new Ex.exMD Ex.exBuild Ex.exDepsVolOnly).map
      (fun p => p.vol_surfaces "V") = .ok none :=
  ⟨rfl, rfl⟩

/-- C3 amended: immediately after a successful construction the cache
contains a forward curve for every id in the dependency record's forward
requirements, and a vol surface for every id that is in the forward
requirements and also in the vol requirements; ids appearing only in the
vol requirements are not populated. -/
theorem c3_prefetch_coverage_amended {RC DS VS FWD : Type}
    (context : MarketData RC DS VS) (build : ForwardBuilder RC DS FWD)
    (deps : DependencyCollector VS FWD) (p : PricingContextPrefetch RC DS VS FWD)
    (h : PricingContextPrefetch.new context build deps = .ok p) :
    (∀ pr ∈ deps.forward_curves, (p.forward_curves pr.1.id).isSome = true) ∧
    (∀ pr ∈ deps.forward_curves, (deps.vol_surfaces pr.1.id).isSome = true →
      (p.vol_surfaces pr.1.id).isSome = true) := by
  unfold PricingContextPrefetch.new walk_dependencies at h
  cases hw : walk_dependencies_from context build deps.vol_surfaces
      deps.forward_curves StrMap.empty StrMap.empty with
  | error e =>
    rw [hw] at h
    simp [error_bind] at h
  | ok caches =>
    obtain ⟨F, V⟩ := caches
    rw [hw, ok_bind] at h
    injection h with h2
    subst h2
    obtain ⟨_, _, cF, cV⟩ := walk_dependencies_from_covers context build
      deps.vol_surfaces deps.forward_curves StrMap.empty StrMap.empty F V hw
    exact ⟨cF, cV⟩

/-- C3 witness: constructing the prefetch from the sample market data and
the sample dependency record succeeds and covers both the forward and the
vol surface of instrument `A`. -/
theorem c3_prefetch_coverage_amended_witness :
    PricingContextPrefetch.new Ex.exMD Ex.exBuild Ex.exDeps = .ok Ex.exPrefetch ∧
    (Ex.exPrefetch.forward_curves "A").isSome = true ∧
    (Ex.exPrefetch.vol_surfaces "A").isSome = true :=
  ⟨rfl,
   (c3_prefetch_coverage_amended Ex.exMD Ex.exBuild Ex.exDeps Ex.exPrefetch rfl).1
     (Ex.exInst, 0) (List.mem_singleton.mpr rfl),
   (c3_prefetch_coverage_amended Ex.exMD Ex.exBuild Ex.exDeps Ex.exPrefetch rfl).2
     (Ex.exInst, 0) (List.mem_singleton.mpr rfl) rfl⟩

end QuantMath
